import Mathlib

/-!
Shallow embedding of the Ermunai payment backend (server.js and its revised
variant in src/unnamed/part_000).  The verified core is the payment
confirmation pipeline of the revised `/save-order` handler
(src/unnamed/part_000, lines 474-563): required-field truthiness check,
optional Firebase identity check, Razorpay HMAC signature check, gateway
amount reconciliation, document-id resolution and Firestore persistence,
together with the `/create-order` handler (lines 439-470) and the
`verifyRazorpaySignature` helper of src/server.js (lines 85-98).

Modelling conventions:
* JSON payload fields are `Option`-typed; `none` models an absent key
  (JS `undefined`).  JS truthiness on strings is `some s` with `s ≠ ""`,
  on integers `some n` with `n ≠ 0`.  Monetary amounts are integers
  (smallest currency unit), as the spec requires.
* External collaborators are parameters of an `Env` record: the Node
  crypto library's `createHmac('sha256', key).update(msg).digest('hex')`
  is an abstract function `hmacSha256Hex : String → String → String`
  (key, message ↦ lowercase hex digest); `razorpay.orders.fetch` is
  `fetchOrder : String → Option GatewayOrder` with `none` for a failed
  (throwing) fetch; `admin.auth().verifyIdToken` wrapped by
  `verifyIdTokenFromRequest` is `decodedUid : Option String` with `none`
  when no valid bearer token accompanies the request; the Firestore
  auto-generated id `ordersCol.doc().id` is `freshId`.
* The Firestore `orders` collection is an association list keyed by the
  document id; `doc(id).set(record)` overwrites in place.
-/

namespace Ermunai

/-- Customer sub-object of a confirmation payload. `none` = absent key. -/
structure Customer where
  name : Option String
  phone : Option String
  address : Option String
  city : Option String
  state : Option String
  pin : Option String
deriving DecidableEq, Repr

/-- One entry of the payload's `items` array.  The revised variant reads
`it.qty || it.quantity || 1` and `it.price || 0`, so both spellings of the
quantity key are modelled. -/
structure ItemIn where
  name : Option String
  qty : Option Int
  quantity : Option Int
  price : Option Int
deriving DecidableEq, Repr

/-- The untrusted client-submitted `orderData` object.  It carries every
key read by any variant: the revised variant reads `userId`, `subtotal`,
`shipping`, `total`, `razorpay_payment_id`, `razorpay_order_id`,
`razorpay_signature`, `order_id`, `status`, `customer`, `items`; the
server.js variant reads `payment_id`, `order_id`, `signature` instead of
the `razorpay_*` spellings.  `items = none` models a value that is not an
array (`Array.isArray` fails). -/
structure OrderData where
  userId : Option String
  subtotal : Option Int
  shipping : Option Int
  total : Option Int
  payment_id : Option String
  order_id : Option String
  signature : Option String
  razorpay_payment_id : Option String
  razorpay_order_id : Option String
  razorpay_signature : Option String
  status : Option String
  customer : Option Customer
  items : Option (List ItemIn)
deriving DecidableEq, Repr

/-- The attributes of a gateway order consumed by the core: `id` and
`amount` (integer paise). -/
structure GatewayOrder where
  id : String
  amount : Int
deriving DecidableEq, Repr

/-- JS truthiness of an optional string: `undefined` and `""` are falsy. -/
def truthyS : Option String → Bool
  | none => false
  | some s => s != ""

/-- JS truthiness of an optional integer: `undefined` and `0` are falsy
(`Number(undefined)` is `NaN`, also falsy). -/
def truthyI : Option Int → Bool
  | none => false
  | some n => n != 0

/-- JS `x || d` on an optional string with a string default. -/
def jsOrStr (o : Option String) (d : String) : String :=
  match o with
  | none => d
  | some s => if s = "" then d else s

/-- JS `Number(x) || d` on an optional integer: absent (`NaN`) and `0`
both fall through to the default. -/
def jsOrI (o : Option Int) (d : Int) : Int :=
  match o with
  | none => d
  | some n => if n = 0 then d else n

/-- JS `x || null` on an optional string: absent and `""` become `null`
(modelled as `none`); a non-empty string passes through. -/
def orNull (o : Option String) : Option String :=
  match o with
  | none => none
  | some s => if s = "" then none else some s

/-- Whitespace removed by JS `String.prototype.trim()` (the ASCII
portion; the claims only exercise the plain space). -/
def isJsSpace (c : Char) : Bool :=
  c == ' ' || c == '\t' || c == '\n' || c == '\r' || c == '\x0b' || c == '\x0c'

/-- JS `String.prototype.trim()`: strip leading and trailing whitespace.
Implemented on the character list so that it evaluates by kernel
reduction (`String.trim` itself is defined by well-founded recursion). -/
def jsTrim (s : String) : String :=
  ⟨((s.data.dropWhile isJsSpace).reverse.dropWhile isJsSpace).reverse⟩

/-- `(x && String(x).trim())` used as one `||`-chain operand
(src/unnamed/part_000 line 530): the trimmed string when `x` is a truthy
string whose trim is non-empty, otherwise a falsy value (`none`). -/
def trimmedTruthy : Option String → Option String
  | none => none
  | some s => if jsTrim s = "" then none else some (jsTrim s)

/-- The candidate document id of the revised variant (line 530):
`(orderData.order_id && trim) || (orderData.razorpay_order_id && trim) || null`. -/
def candidateId (od : OrderData) : Option String :=
  match trimmedTruthy od.order_id with
  | some c => some c
  | none => trimmedTruthy od.razorpay_order_id

/-- The required-field loop of the revised variant (lines 484-489):
returns the first field of
`["userId","total","razorpay_payment_id","razorpay_order_id","razorpay_signature"]`
whose payload value is falsy, or `none` when all are truthy. -/
def requiredCheck (od : OrderData) : Option String :=
  if !truthyS od.userId then some "userId"
  else if !truthyI od.total then some "total"
  else if !truthyS od.razorpay_payment_id then some "razorpay_payment_id"
  else if !truthyS od.razorpay_order_id then some "razorpay_order_id"
  else if !truthyS od.razorpay_signature then some "razorpay_signature"
  else none

/-- Sentinel written by `admin.firestore.FieldValue.serverTimestamp()`;
the store replaces it with a server-assigned time at write time. -/
inductive Timestamp where
  | serverTimestamp
deriving DecidableEq, Repr

/-- One entry of the persisted `items` array.  `name := it.name` is copied
verbatim from the payload, so `none` here models a propagated JS
`undefined`; `quantity` and `price` are always defined numbers thanks to
the `|| 1` / `|| 0` defaults. -/
structure ItemOut where
  name : Option String
  quantity : Int
  price : Int
deriving DecidableEq, Repr

/-- The persisted Firestore document of the revised variant (lines
535-555).  For the string fields built with `|| null` (`customerName`,
`phone`, `paymentId`, `razorpay_order_id`, `razorpay_signature`) and for
the ternary-with-null `address`, `none` models an explicit JS `null`
(a defined value).  `userId := orderData.userId` is copied verbatim, so
`none` there would model a propagated `undefined`. -/
structure OrderRecord where
  orderId : String
  userId : Option String
  customerName : Option String
  phone : Option String
  address : Option String
  subtotal : Int
  shipping : Int
  totalAmount : Int
  paymentId : Option String
  razorpay_order_id : Option String
  razorpay_signature : Option String
  paymentStatus : String
  items : List ItemOut
  createdAt : Timestamp
  rawPayload : OrderData
deriving DecidableEq, Repr

/-- The `orders` collection: an association list from document id to
document, in insertion order. -/
abbrev Store := List (String × OrderRecord)

/-- `db.collection("orders").doc(i).set(r)`: overwrite the document at
`i` if present, else append a new document. -/
def Store.set : Store → String → OrderRecord → Store
  | [], i, r => [(i, r)]
  | (j, q) :: t, i, r => if j = i then (i, r) :: t else (j, q) :: Store.set t i r

/-- Look up the document stored at an id. -/
def Store.get : Store → String → Option OrderRecord
  | [], _ => none
  | (j, q) :: t, i => if j = i then some q else Store.get t i

/-- The external collaborators and configuration a request handler sees.
`secret` is `process.env.RAZORPAY_KEY_SECRET` (`none` when the variable is
unset); the remaining fields are described in the module docstring. -/
structure Env where
  secret : Option String
  hmacSha256Hex : String → String → String
  decodedUid : Option String
  fetchOrder : String → Option GatewayOrder
  freshId : String

/-- The error taxonomy of the confirmation pipeline, one constructor per
early-return of the revised `/save-order` handler. -/
inductive ConfirmError where
  | missingField (f : String)
  | identityMismatch
  | invalidSignature
  | gatewayVerificationFailed
  | amountMismatch
deriving DecidableEq, Repr

/-- The HTTP response of a confirmation: the final document id on
success, an error otherwise. -/
inductive Resp where
  | ok (id : String)
  | error (e : ConfirmError)
deriving DecidableEq, Repr

/-- Result of one confirmation request: the response together with the
state of the `orders` collection afterwards.  Every early return leaves
the store untouched; only the success path reaches `orderDocRef.set`. -/
structure Outcome where
  resp : Resp
  store : Store
deriving DecidableEq, Repr

/-- `expectedSignature` of the revised variant (lines 504-506):
the hex HMAC-SHA256 of `` `${razorpay_order_id}|${razorpay_payment_id}` ``
keyed by `process.env.RAZORPAY_KEY_SECRET || ""`. -/
def expectedSignature (env : Env) (od : OrderData) : String :=
  env.hmacSha256Hex (env.secret.getD "")
    ((od.razorpay_order_id.getD "") ++ "|" ++ (od.razorpay_payment_id.getD ""))

/-- The identity check of the revised variant (lines 492-496): a decoded
token whose `uid` differs from the payload's `userId` fails; a missing or
invalid token (decoded `none`) does not fail. -/
def identityFails (env : Env) (od : OrderData) : Bool :=
  match env.decodedUid with
  | some uid => od.userId != some uid
  | none => false

/-- The `address` field expression of `formattedOrder` (line 540):
`(customer && customer.address) ? template : null`, where the template
defaults `city`, `state` and `pin` with `|| ""`. -/
def formatAddress (cOpt : Option Customer) : Option String :=
  match cOpt with
  | none => none
  | some c =>
    match c.address with
    | none => none
    | some a =>
      if a = "" then none
      else some (a ++ ", " ++ c.city.getD "" ++ ", " ++ c.state.getD ""
        ++ " - " ++ c.pin.getD "")

/-- The `items` field expression of `formattedOrder` (lines 548-552):
`Array.isArray(items) ? items.map(...) : []`, mapping each item to
`{name: it.name, quantity: it.qty || it.quantity || 1, price: it.price || 0}`. -/
def mapItems (items : Option (List ItemIn)) : List ItemOut :=
  match items with
  | some l => l.map fun it =>
      { name := it.name
        quantity := jsOrI it.qty (jsOrI it.quantity 1)
        price := jsOrI it.price 0 }
  | none => []

/-- The `formattedOrder` document composed on the success path of the
revised variant (lines 535-555), keyed by `finalDocId`. -/
def formattedOrder (od : OrderData) (finalDocId : String) : OrderRecord :=
  { orderId := finalDocId
    userId := od.userId
    customerName := orNull (od.customer.bind Customer.name)
    phone := orNull (od.customer.bind Customer.phone)
    address := formatAddress od.customer
    subtotal := jsOrI od.subtotal 0
    shipping := jsOrI od.shipping 0
    totalAmount := jsOrI od.total 0
    paymentId := orNull od.razorpay_payment_id
    razorpay_order_id := orNull od.razorpay_order_id
    razorpay_signature := orNull od.razorpay_signature
    paymentStatus := jsOrStr od.status "Paid"
    items := mapItems od.items
    createdAt := Timestamp.serverTimestamp
    rawPayload := od }

/-- The revised `/save-order` handler (src/unnamed/part_000, lines
474-563), given its collaborators `env`, the current `orders` collection
and the parsed `orderData` object.  The stages appear in source order:
required fields, identity, signature, gateway fetch and amount
reconciliation, then document-id resolution and the single store write. -/
def confirm (env : Env) (store : Store) (od : OrderData) : Outcome :=
  match requiredCheck od with
  | some f => ⟨Resp.error (ConfirmError.missingField f), store⟩
  | none =>
    if identityFails env od then ⟨Resp.error ConfirmError.identityMismatch, store⟩
    else if od.razorpay_signature ≠ some (expectedSignature env od) then
      ⟨Resp.error ConfirmError.invalidSignature, store⟩
    else
      match env.fetchOrder (od.razorpay_order_id.getD "") with
      | none => ⟨Resp.error ConfirmError.gatewayVerificationFailed, store⟩
      | some gw =>
        if gw.amount ≠ od.total.getD 0 then
          ⟨Resp.error ConfirmError.amountMismatch, store⟩
        else
          let finalDocId := (candidateId od).getD env.freshId
          ⟨Resp.ok finalDocId, store.set finalDocId (formattedOrder od finalDocId)⟩

/-- Error of the `/create-order` handler when the amount is missing,
non-numeric, zero or negative. -/
inductive InitError where
  | invalidAmount
deriving DecidableEq, Repr

/-- The revised `/create-order` handler (src/unnamed/part_000, lines
439-462): validates `amount` (already integer paise; absent, `0` or
non-positive rejects) and returns the exact amount passed to
`razorpay.orders.create` (`Math.round` of an integer is the integer). -/
def createOrder (amount : Option Int) : Except InitError Int :=
  match amount with
  | none => Except.error InitError.invalidAmount
  | some a => if a ≤ 0 then Except.error InitError.invalidAmount else Except.ok a

/-- `verifyRazorpaySignature` of src/server.js (lines 85-98): a missing
`order_id`, `payment_id` or `signature` returns `false` outright,
otherwise the submitted signature is compared with the expected hex
HMAC-SHA256 of `order_id + "|" + payment_id`. -/
def verifyRazorpaySignature (env : Env)
    (order_id payment_id signature : Option String) : Bool :=
  if !truthyS order_id || !truthyS payment_id || !truthyS signature then false
  else
    env.hmacSha256Hex (env.secret.getD "")
      ((order_id.getD "") ++ "|" ++ (payment_id.getD "")) == signature.getD ""

/-- Decidable form of the spec's persisted-record invariant "no field of
the written record is undefined".  Every field of `formattedOrder` other
than `userId` and the item names is built by an expression that cannot
evaluate to JS `undefined` (a literal, a template string, or a `|| 0` /
`|| 1` / `|| null` / `|| "Paid"` default), so the check reduces to the
two verbatim copies. -/
def recordNoUndefinedB (r : OrderRecord) : Bool :=
  r.userId.isSome && r.items.all fun it => it.name.isSome

/-! ### Branch characterizations of `confirm` -/

theorem confirm_missing (env : Env) (s : Store) (od : OrderData) (f : String)
    (h : requiredCheck od = some f) :
    confirm env s od = ⟨Resp.error (ConfirmError.missingField f), s⟩ := by
  unfold confirm
  rw [h]

theorem confirm_identity (env : Env) (s : Store) (od : OrderData)
    (hreq : requiredCheck od = none) (hid : identityFails env od = true) :
    confirm env s od = ⟨Resp.error ConfirmError.identityMismatch, s⟩ := by
  unfold confirm
  rw [hreq]
  simp [hid]

theorem confirm_badSig (env : Env) (s : Store) (od : OrderData)
    (hreq : requiredCheck od = none) (hid : identityFails env od = false)
    (hsig : od.razorpay_signature ≠ some (expectedSignature env od)) :
    confirm env s od = ⟨Resp.error ConfirmError.invalidSignature, s⟩ := by
  unfold confirm
  rw [hreq]
  simp [hid, hsig]

theorem confirm_fetchFail (env : Env) (s : Store) (od : OrderData)
    (hreq : requiredCheck od = none) (hid : identityFails env od = false)
    (hsig : od.razorpay_signature = some (expectedSignature env od))
    (hf : env.fetchOrder (od.razorpay_order_id.getD "") = none) :
    confirm env s od = ⟨Resp.error ConfirmError.gatewayVerificationFailed, s⟩ := by
  unfold confirm
  rw [hreq]
  simp [hid, hsig, hf]

theorem confirm_amountMismatch (env : Env) (s : Store) (od : OrderData)
    (gw : GatewayOrder)
    (hreq : requiredCheck od = none) (hid : identityFails env od = false)
    (hsig : od.razorpay_signature = some (expectedSignature env od))
    (hf : env.fetchOrder (od.razorpay_order_id.getD "") = some gw)
    (ha : gw.amount ≠ od.total.getD 0) :
    confirm env s od = ⟨Resp.error ConfirmError.amountMismatch, s⟩ := by
  unfold confirm
  rw [hreq]
  simp [hid, hsig, hf, ha]

theorem confirm_ok (env : Env) (s : Store) (od : OrderData) (gw : GatewayOrder)
    (hreq : requiredCheck od = none) (hid : identityFails env od = false)
    (hsig : od.razorpay_signature = some (expectedSignature env od))
    (hf : env.fetchOrder (od.razorpay_order_id.getD "") = some gw)
    (ha : gw.amount = od.total.getD 0) :
    confirm env s od =
      ⟨Resp.ok ((candidateId od).getD env.freshId),
        s.set ((candidateId od).getD env.freshId)
          (formattedOrder od ((candidateId od).getD env.freshId))⟩ := by
  unfold confirm
  rw [hreq]
  simp [hid, hsig, hf, ha]

/-- Inversion: a successful confirmation passed every stage, its id is the
resolved candidate (or the fresh id), and the store received exactly one
`set` of the formatted document at that id. -/
theorem confirm_ok_inv (env : Env) (s : Store) (od : OrderData)
    (id : String) (s' : Store)
    (h : confirm env s od = ⟨Resp.ok id, s'⟩) :
    requiredCheck od = none ∧ identityFails env od = false ∧
    od.razorpay_signature = some (expectedSignature env od) ∧
    (∃ gw, env.fetchOrder (od.razorpay_order_id.getD "") = some gw ∧
      gw.amount = od.total.getD 0) ∧
    id = (candidateId od).getD env.freshId ∧
    s' = s.set id (formattedOrder od id) := by
  unfold confirm at h
  cases hreq : requiredCheck od with
  | some f => rw [hreq] at h; simp at h
  | none =>
    rw [hreq] at h
    cases hid : identityFails env od with
    | true => simp [hid] at h
    | false =>
      simp only [hid, Bool.false_eq_true, if_false] at h
      by_cases hsig : od.razorpay_signature = some (expectedSignature env od)
      · simp only [hsig, ne_eq, not_true_eq_false, if_false] at h
        cases hf : env.fetchOrder (od.razorpay_order_id.getD "") with
        | none => rw [hf] at h; simp at h
        | some gw =>
          rw [hf] at h
          by_cases ha : gw.amount = od.total.getD 0
          · simp only [ha, ne_eq, not_true_eq_false, if_false] at h
            have hid2 : id = (candidateId od).getD env.freshId := by
              have hr := congrArg Outcome.resp h
              simpa using hr.symm
            have hs2 : s' = s.set id (formattedOrder od id) := by
              have hst := congrArg Outcome.store h
              rw [hid2]
              exact hst.symm
            exact ⟨rfl, rfl, hsig, ⟨gw, rfl, ha⟩, hid2, hs2⟩
          · simp [ha] at h
      · simp [hsig] at h

/-! ### Store lemmas -/

theorem Store.get_set_self (s : Store) (i : String) (r : OrderRecord) :
    Store.get (Store.set s i r) i = some r := by
  induction s with
  | nil => simp [Store.set, Store.get]
  | cons p t ih =>
    obtain ⟨j, q⟩ := p
    by_cases hij : j = i
    · simp [Store.set, Store.get, hij]
    · simp [Store.set, Store.get, hij, ih]

theorem Store.set_set_self (s : Store) (i : String) (r : OrderRecord) :
    Store.set (Store.set s i r) i r = Store.set s i r := by
  induction s with
  | nil => simp [Store.set]
  | cons p t ih =>
    obtain ⟨j, q⟩ := p
    by_cases hij : j = i
    · simp [Store.set, hij]
    · simp [Store.set, hij, ih]

/-- A payload that passes the required-field loop has all five required
fields truthy. -/
theorem requiredCheck_eq_none (od : OrderData) (h : requiredCheck od = none) :
    truthyS od.userId = true ∧ truthyI od.total = true ∧
    truthyS od.razorpay_payment_id = true ∧ truthyS od.razorpay_order_id = true ∧
    truthyS od.razorpay_signature = true := by
  unfold requiredCheck at h
  repeat' split at h
  all_goals simp_all

/-! ### Concrete fixtures used by witnesses and counterexamples.
`hmacW` is an arbitrary concrete stand-in for the external digest
function; every claim theorem is quantified over `hmacSha256Hex`, the
fixtures only instantiate them. -/

def hmacW : String → String → String := fun k m => k ++ "#" ++ m

def custW : Customer :=
  { name := some "A", phone := none, address := none,
    city := none, state := none, pin := none }

/-- A well-formed confirmation payload: required fields truthy, no client
`order_id`, signature matching `hmacW` under secret `"sec"`. -/
def pW : OrderData :=
  { userId := some "user1", subtotal := some 100, shipping := some 10,
    total := some 110, payment_id := none, order_id := none, signature := none,
    razorpay_payment_id := some "pay_1", razorpay_order_id := some "order_1",
    razorpay_signature := some (hmacW "sec" "order_1|pay_1"),
    status := none, customer := some custW, items := none }

/-- Environment matching `pW`: secret `"sec"`, no bearer token, gateway
order `order_1` recorded with amount 110. -/
def envW : Env :=
  { secret := some "sec", hmacSha256Hex := hmacW, decodedUid := none,
    fetchOrder := fun i => if i = "order_1" then some ⟨"order_1", 110⟩ else none,
    freshId := "fresh1" }

/-! ### Claims -/

/-- C1: when the gateway order id, payment id and signature are all
present (the payload passes the required-field check) and the identity
layer does not reject, Confirm accepts the submitted signature exactly
when it equals the hex HMAC-SHA256 digest of
`razorpay_order_id ++ "|" ++ razorpay_payment_id` keyed by the configured
shared signing secret; on a mismatch it rejects with `invalidSignature`
and the store is returned unchanged (no write). -/
theorem confirm_signature_exactness (env : Env) (s : Store) (od : OrderData)
    (sec : String) (hsec : env.secret = some sec)
    (hreq : requiredCheck od = none) (hid : identityFails env od = false) :
    ((confirm env s od).resp ≠ Resp.error ConfirmError.invalidSignature ↔
      od.razorpay_signature = some (env.hmacSha256Hex sec
        ((od.razorpay_order_id.getD "") ++ "|" ++ (od.razorpay_payment_id.getD "")))) ∧
    (od.razorpay_signature ≠ some (env.hmacSha256Hex sec
        ((od.razorpay_order_id.getD "") ++ "|" ++ (od.razorpay_payment_id.getD ""))) →
      confirm env s od = ⟨Resp.error ConfirmError.invalidSignature, s⟩) := by
  have hexp : env.hmacSha256Hex sec
      ((od.razorpay_order_id.getD "") ++ "|" ++ (od.razorpay_payment_id.getD ""))
      = expectedSignature env od := by
    simp [expectedSignature, hsec]
  rw [hexp]
  refine ⟨⟨fun hne => ?_, fun hsig => ?_⟩, fun hsig => confirm_badSig env s od hreq hid hsig⟩
  · by_contra hsig
    exact hne (by rw [confirm_badSig env s od hreq hid hsig])
  · cases hf : env.fetchOrder (od.razorpay_order_id.getD "") with
    | none => rw [confirm_fetchFail env s od hreq hid hsig hf]; simp
    | some gw =>
      by_cases ha : gw.amount = od.total.getD 0
      · rw [confirm_ok env s od gw hreq hid hsig hf ha]; simp
      · rw [confirm_amountMismatch env s od gw hreq hid hsig hf ha]; simp

/-- Witness for `confirm_signature_exactness`: the fixture's matching
signature is accepted. -/
theorem confirm_signature_exactness_w :
    (confirm envW [] pW).resp ≠ Resp.error ConfirmError.invalidSignature :=
  (confirm_signature_exactness envW [] pW "sec" rfl (by decide) (by decide)).1.mpr
    (by decide)

/-- C2: once the signature check has passed, Confirm fetches the gateway
order: a failed fetch rejects with `gatewayVerificationFailed`, a fetched
amount different from the client-claimed total rejects with
`amountMismatch` — in both cases the store is unchanged — and an exactly
equal amount lets the confirmation proceed to success. -/
theorem confirm_amount_reconciliation (env : Env) (s : Store) (od : OrderData)
    (hreq : requiredCheck od = none) (hid : identityFails env od = false)
    (hsig : od.razorpay_signature = some (expectedSignature env od)) :
    (env.fetchOrder (od.razorpay_order_id.getD "") = none →
      confirm env s od = ⟨Resp.error ConfirmError.gatewayVerificationFailed, s⟩) ∧
    ∀ gw, env.fetchOrder (od.razorpay_order_id.getD "") = some gw →
      (gw.amount ≠ od.total.getD 0 →
        confirm env s od = ⟨Resp.error ConfirmError.amountMismatch, s⟩) ∧
      (gw.amount = od.total.getD 0 →
        (confirm env s od).resp = Resp.ok ((candidateId od).getD env.freshId)) := by
  refine ⟨fun hf => confirm_fetchFail env s od hreq hid hsig hf, fun gw hf =>
    ⟨fun ha => confirm_amountMismatch env s od gw hreq hid hsig hf ha, fun ha => ?_⟩⟩
  rw [confirm_ok env s od gw hreq hid hsig hf ha]

/-- Witness for `confirm_amount_reconciliation`: with the gateway amount
equal to the claimed total, the fixture confirmation proceeds. -/
theorem confirm_amount_reconciliation_w :
    (confirm envW [] pW).resp = Resp.ok ((candidateId pW).getD envW.freshId) :=
  ((confirm_amount_reconciliation envW [] pW (by decide) (by decide) (by decide)).2
    ⟨"order_1", 110⟩ (by decide)).2 (by decide)

/-- The claim's identifier-resolution precedence, written as the spec
states it: the trimmed client-supplied `order_id` when non-empty, else
the trimmed gateway `razorpay_order_id` when non-empty, else the freshly
generated store id. -/
def specDocId (env : Env) (od : OrderData) : String :=
  if jsTrim (od.order_id.getD "") ≠ "" then jsTrim (od.order_id.getD "")
  else if jsTrim (od.razorpay_order_id.getD "") ≠ "" then jsTrim (od.razorpay_order_id.getD "")
  else env.freshId

theorem trim_empty : jsTrim "" = "" := rfl

/-- The source's `candidateId ... || auto-id` agrees with the claim's
precedence formula. -/
theorem candidateId_getD (env : Env) (od : OrderData) :
    (candidateId od).getD env.freshId = specDocId env od := by
  unfold candidateId specDocId trimmedTruthy
  cases ho : od.order_id with
  | none =>
    cases hr : od.razorpay_order_id with
    | none => simp [trim_empty]
    | some r => by_cases hrt : jsTrim r = "" <;> simp [trim_empty, hrt]
  | some o =>
    by_cases hot : jsTrim o = ""
    · cases hr : od.razorpay_order_id with
      | none => simp [trim_empty, hot]
      | some r => by_cases hrt : jsTrim r = "" <;> simp [trim_empty, hot, hrt]
    · simp [hot]

/-- C4: every successful confirmation returns the document id resolved by
the claim's precedence (trimmed client order_id, else trimmed gateway
order id, else the freshly generated store id), and the new store is the
old store with exactly that document written at that id. -/
theorem confirm_docId_precedence (env : Env) (s : Store) (od : OrderData)
    (id : String) (s' : Store)
    (h : confirm env s od = ⟨Resp.ok id, s'⟩) :
    id = specDocId env od ∧
    ∃ r, s' = s.set id r ∧ Store.get s' id = some r := by
  obtain ⟨-, -, -, -, hid2, hs2⟩ := confirm_ok_inv env s od id s' h
  refine ⟨hid2.trans (candidateId_getD env od), formattedOrder od id, hs2, ?_⟩
  rw [hs2]
  exact Store.get_set_self s id (formattedOrder od id)

/-- Witness for `confirm_docId_precedence`: the fixture persists at the
gateway order id, which is returned. -/
theorem confirm_docId_precedence_w :
    "order_1" = specDocId envW pW ∧
    ∃ r, Store.set [] "order_1" (formattedOrder pW "order_1") = Store.set [] "order_1" r ∧
      Store.get (Store.set [] "order_1" (formattedOrder pW "order_1")) "order_1" = some r :=
  confirm_docId_precedence envW [] pW "order_1"
    (Store.set [] "order_1" (formattedOrder pW "order_1")) (by decide)

/-- Environment carrying a verified bearer token whose subject differs
from the fixture payload's `userId`. -/
def envM : Env := { envW with decodedUid := some "mallory" }

/-- C8: a verified bearer credential whose subject id differs from the
payload's claimed `userId` makes Confirm reject with `identityMismatch`
and leave the store unchanged; with no valid credential the confirmation
proceeds exactly as if the caller were authenticated as the claimed user
(permissive policy). -/
theorem confirm_identity_policy (env : Env) (s : Store) (od : OrderData)
    (hreq : requiredCheck od = none) :
    (∀ uid, env.decodedUid = some uid → od.userId ≠ some uid →
      confirm env s od = ⟨Resp.error ConfirmError.identityMismatch, s⟩) ∧
    (env.decodedUid = none →
      confirm env s od = confirm { env with decodedUid := od.userId } s od) := by
  constructor
  · intro uid hdec hne
    apply confirm_identity env s od hreq
    simp [identityFails, hdec]
    exact hne
  · intro hdec
    obtain ⟨hu, -, -, -, -⟩ := requiredCheck_eq_none od hreq
    obtain ⟨u, hu'⟩ : ∃ u, od.userId = some u := by
      cases h : od.userId with
      | none => rw [h] at hu; simp [truthyS] at hu
      | some u => exact ⟨u, rfl⟩
    have h1 : identityFails env od = false := by simp [identityFails, hdec]
    have h2 : identityFails { env with decodedUid := od.userId } od = false := by
      simp [identityFails, hu']
    unfold confirm
    rw [hreq]
    simp only [h1, h2, Bool.false_eq_true, if_false]
    rfl

/-- Witness for `confirm_identity_policy`: the fixture request with a
mismatched verified subject is rejected without a write. -/
theorem confirm_identity_policy_w :
    confirm envM [] pW = ⟨Resp.error ConfirmError.identityMismatch, []⟩ :=
  (confirm_identity_policy envM [] pW (by decide)).1 "mallory" rfl (by decide)

/-- Environment with the signing-secret configuration absent. -/
def envE : Env := { envW with secret := none }

/-- Payload signed with the empty-string HMAC key, matching `envE`. -/
def pE : OrderData := { pW with razorpay_signature := some (hmacW "" "order_1|pay_1") }

/-- C9: when the signing-secret configuration is absent, signature
verification does not fail or abort: the expected signature is computed
with `""` as the HMAC key, so a payload whose signature is the digest of
the identifiers under the empty key passes verification and the
confirmation succeeds. -/
theorem confirm_empty_secret (env : Env) (s : Store) (od : OrderData)
    (gw : GatewayOrder) (hsec : env.secret = none)
    (hsig : od.razorpay_signature = some (env.hmacSha256Hex ""
      ((od.razorpay_order_id.getD "") ++ "|" ++ (od.razorpay_payment_id.getD ""))))
    (hreq : requiredCheck od = none) (hid : identityFails env od = false)
    (hf : env.fetchOrder (od.razorpay_order_id.getD "") = some gw)
    (ha : gw.amount = od.total.getD 0) :
    (confirm env s od).resp = Resp.ok ((candidateId od).getD env.freshId) := by
  have hsig' : od.razorpay_signature = some (expectedSignature env od) := by
    rw [hsig]
    simp [expectedSignature, hsec]
  rw [confirm_ok env s od gw hreq hid hsig' hf ha]

/-- Witness for `confirm_empty_secret`: the fixture with no configured
secret and an empty-key signature is accepted. -/
theorem confirm_empty_secret_w :
    (confirm envE [] pE).resp = Resp.ok ((candidateId pE).getD envE.freshId) :=
  confirm_empty_secret envE [] pE ⟨"order_1", 110⟩ rfl (by decide) (by decide)
    (by decide) (by decide) (by decide)

/-- Payload whose `total` is the well-formed integer 0, which JS
truthiness treats as missing. -/
def pC10 : OrderData := { pW with total := some 0 }

/-- C10: the required-field check tests JS truthiness, not presence: a
payload in which `userId`, `total`, `razorpay_payment_id`,
`razorpay_order_id` or `razorpay_signature` is falsy is rejected as a
missing required field, with no store write, for every environment — in
particular before (and regardless of) signature verification. -/
theorem confirm_required_truthiness (env : Env) (s : Store) (od : OrderData)
    (h : truthyS od.userId = false ∨ truthyI od.total = false ∨
      truthyS od.razorpay_payment_id = false ∨
      truthyS od.razorpay_order_id = false ∨
      truthyS od.razorpay_signature = false) :
    ∃ f, confirm env s od = ⟨Resp.error (ConfirmError.missingField f), s⟩ := by
  have hne : requiredCheck od ≠ none := by
    intro hn
    obtain ⟨h1, h2, h3, h4, h5⟩ := requiredCheck_eq_none od hn
    rcases h with h | h | h | h | h <;> simp_all
  obtain ⟨f, hf⟩ := Option.ne_none_iff_exists'.mp hne
  exact ⟨f, confirm_missing env s od f hf⟩

/-- Witness for `confirm_required_truthiness`: `total = 0` is rejected as
missing even though the signature of the fixture payload is valid. -/
theorem confirm_required_truthiness_w :
    ∃ f, confirm envW [] pC10 = ⟨Resp.error (ConfirmError.missingField f), []⟩ :=
  confirm_required_truthiness envW [] pC10 (Or.inr (Or.inl (by decide)))

/-- The spec's end-to-end scenario payload exactly as the spec writes it:
gateway identifiers `order_1`/`pay_1`, the matching signature, total
10000 and customer `{name:"A"}` — and no other field, in particular no
`userId`. -/
def pE2E : OrderData :=
  { userId := none, subtotal := none, shipping := none, total := some 10000,
    payment_id := none, order_id := none, signature := none,
    razorpay_payment_id := some "pay_1", razorpay_order_id := some "order_1",
    razorpay_signature := some (hmacW "sec" "order_1|pay_1"),
    status := none, customer := some custW, items := none }

/-- Environment for the end-to-end scenario: the gateway holds the order
`order_1` created by `Initiate(10000)` with amount 10000. -/
def envE2E : Env :=
  { secret := some "sec", hmacSha256Hex := hmacW, decodedUid := none,
    fetchOrder := fun i => if i = "order_1" then some ⟨"order_1", 10000⟩ else none,
    freshId := "fresh1" }

/-- C3 counterexample: `Initiate(10000)` does forward exactly 10000 to
the gateway, but the spec's end-to-end Confirm payload — which carries no
`userId` — is rejected with `missingField "userId"` and persists nothing,
instead of succeeding with document `order_1`. -/
theorem confirm_e2e_cex :
    createOrder (some 10000) = Except.ok 10000 ∧
    confirm envE2E [] pE2E =
      ⟨Resp.error (ConfirmError.missingField "userId"), []⟩ :=
  ⟨rfl, by decide⟩

/-- The end-to-end payload amended with the truthy `userId` the code
requires, and with the given signature string. -/
def pE2EA (sig : String) : OrderData :=
  { pE2E with userId := some "user_A", razorpay_signature := some sig }

/-- C3 (amended): `Initiate(10000)` passes exactly the caller's 10000
smallest-unit amount to the gateway, and the spec's end-to-end Confirm —
amended to carry the `userId` the required-field check demands — succeeds
with document id `order_1`, writing a record with `totalAmount = 10000`
and `paymentStatus = "Paid"`. -/
theorem confirm_e2e (env : Env) (s : Store) (sec : String)
    (hsec : env.secret = some sec)
    (hhex : env.hmacSha256Hex sec "order_1|pay_1" ≠ "")
    (hdec : env.decodedUid = none)
    (hf : env.fetchOrder "order_1" = some ⟨"order_1", 10000⟩) :
    createOrder (some 10000) = Except.ok 10000 ∧
    confirm env s (pE2EA (env.hmacSha256Hex sec "order_1|pay_1")) =
      ⟨Resp.ok "order_1",
        Store.set s "order_1"
          (formattedOrder (pE2EA (env.hmacSha256Hex sec "order_1|pay_1")) "order_1")⟩ ∧
    (formattedOrder (pE2EA (env.hmacSha256Hex sec "order_1|pay_1")) "order_1").totalAmount
      = 10000 ∧
    (formattedOrder (pE2EA (env.hmacSha256Hex sec "order_1|pay_1")) "order_1").paymentStatus
      = "Paid" := by
  refine ⟨rfl, ?_, rfl, rfl⟩
  have hreq : requiredCheck (pE2EA (env.hmacSha256Hex sec "order_1|pay_1")) = none := by
    simp [requiredCheck, pE2EA, pE2E, truthyS, truthyI, hhex]
  have hid : identityFails env (pE2EA (env.hmacSha256Hex sec "order_1|pay_1")) = false := by
    simp [identityFails, hdec]
  have hsg : (pE2EA (env.hmacSha256Hex sec "order_1|pay_1")).razorpay_signature =
      some (expectedSignature env (pE2EA (env.hmacSha256Hex sec "order_1|pay_1"))) := by
    show some (env.hmacSha256Hex sec "order_1|pay_1")
      = some (env.hmacSha256Hex (env.secret.getD "") ("order_1" ++ "|" ++ "pay_1"))
    rw [hsec]
    rfl
  have hfo : env.fetchOrder
      ((pE2EA (env.hmacSha256Hex sec "order_1|pay_1")).razorpay_order_id.getD "")
      = some ⟨"order_1", 10000⟩ := hf
  have h := confirm_ok env s (pE2EA (env.hmacSha256Hex sec "order_1|pay_1"))
    ⟨"order_1", 10000⟩ hreq hid hsg hfo rfl
  have hc : (candidateId (pE2EA (env.hmacSha256Hex sec "order_1|pay_1"))).getD env.freshId
      = "order_1" := rfl
  rw [h, hc]

/-- Witness for `confirm_e2e` at the concrete scenario environment. -/
theorem confirm_e2e_w :
    createOrder (some 10000) = Except.ok 10000 ∧
    confirm envE2E [] (pE2EA (envE2E.hmacSha256Hex "sec" "order_1|pay_1")) =
      ⟨Resp.ok "order_1",
        Store.set [] "order_1"
          (formattedOrder (pE2EA (envE2E.hmacSha256Hex "sec" "order_1|pay_1")) "order_1")⟩ ∧
    (formattedOrder (pE2EA (envE2E.hmacSha256Hex "sec" "order_1|pay_1")) "order_1").totalAmount
      = 10000 ∧
    (formattedOrder (pE2EA (envE2E.hmacSha256Hex "sec" "order_1|pay_1")) "order_1").paymentStatus
      = "Paid" :=
  confirm_e2e envE2E [] "sec" rfl (by decide) rfl (by decide)

/-- Payload whose gateway order id is all whitespace: truthy, so it
passes the required check, but trimmed to emptiness, so no candidate
document id exists and a fresh store id is generated. -/
def pWS : OrderData :=
  { userId := some "user1", subtotal := none, shipping := none,
    total := some 5, payment_id := none, order_id := none, signature := none,
    razorpay_payment_id := some "p1", razorpay_order_id := some " ",
    razorpay_signature := some (hmacW "sec" " |p1"),
    status := none, customer := some custW, items := none }

/-- First run: the store draws the fresh id `autoA`. -/
def envWS1 : Env :=
  { secret := some "sec", hmacSha256Hex := hmacW, decodedUid := none,
    fetchOrder := fun i => if i = " " then some ⟨" ", 5⟩ else none,
    freshId := "autoA" }

/-- Second run: the store draws a different fresh id `autoB` (Firestore
auto-ids are unique per `doc()` call). -/
def envWS2 : Env := { envWS1 with freshId := "autoB" }

/-- C5 counterexample: the whitespace-order-id payload passes every
check, yet two identical Confirm calls produce two different document
ids and the second call leaves two documents in the store (duplication,
not overwrite). -/
theorem confirm_idempotence_cex :
    (confirm envWS1 [] pWS).resp = Resp.ok "autoA" ∧
    (confirm envWS2 (confirm envWS1 [] pWS).store pWS).resp = Resp.ok "autoB" ∧
    "autoA" ≠ "autoB" ∧
    ((confirm envWS2 (confirm envWS1 [] pWS).store pWS).store).length = 2 := by
  decide

/-- C5 (amended): whenever a candidate document id exists (the trimmed
client `order_id` or gateway `razorpay_order_id` is non-empty), a second
Confirm of the identical payload — under collaborators that answer the
same — returns the same document id and leaves the store exactly as the
first call left it: the write overwrites, creating no second document. -/
theorem confirm_idempotent (env1 env2 : Env) (s s1 : Store) (od : OrderData)
    (c id1 : String) (hc : candidateId od = some c)
    (hsec : env1.secret = env2.secret)
    (hhm : env1.hmacSha256Hex = env2.hmacSha256Hex)
    (hdec : env1.decodedUid = env2.decodedUid)
    (hfo : env1.fetchOrder = env2.fetchOrder)
    (h1 : confirm env1 s od = ⟨Resp.ok id1, s1⟩) :
    confirm env2 s1 od = ⟨Resp.ok id1, s1⟩ := by
  obtain ⟨hreq, hid, hsig, ⟨gw, hf, ha⟩, hid2, hs2⟩ := confirm_ok_inv env1 s od id1 s1 h1
  have hcid1 : id1 = c := by
    rw [hid2, hc]
    rfl
  have hgd : (candidateId od).getD env2.freshId = id1 := by
    rw [hc, hcid1]
    rfl
  have hexp : expectedSignature env2 od = expectedSignature env1 od := by
    simp [expectedSignature, hsec, hhm]
  have hid' : identityFails env2 od = false := by
    unfold identityFails at hid ⊢
    rw [← hdec]
    exact hid
  have h2 := confirm_ok env2 s1 od gw hreq hid' (by rw [hexp]; exact hsig)
    (by rw [← hfo]; exact hf) ha
  rw [h2, hgd, hs2, Store.set_set_self]

/-- Witness for `confirm_idempotent`: re-confirming the fixture payload
on the store it already produced returns the same id and store. -/
theorem confirm_idempotent_w :
    confirm envW (Store.set [] "order_1" (formattedOrder pW "order_1")) pW =
      ⟨Resp.ok "order_1", Store.set [] "order_1" (formattedOrder pW "order_1")⟩ :=
  confirm_idempotent envW envW [] (Store.set [] "order_1" (formattedOrder pW "order_1")) pW
    "order_1" "order_1" (by decide) rfl rfl rfl rfl (by decide)

/-- An item with no `name` key. -/
def itemNoName : ItemIn := { name := none, qty := some 2, quantity := none, price := some 5 }

/-- An accepted payload carrying one item with no `name` key. -/
def pNoName : OrderData := { pW with items := some [itemNoName] }

/-- C6 counterexample: a payload whose single item lacks a `name` is
accepted end to end, and the persisted record carries the propagated
`undefined` in `items[0].name` — the no-undefined invariant fails. -/
theorem record_no_undefined_cex :
    (confirm envW [] pNoName).resp = Resp.ok "order_1" ∧
    (Store.get (confirm envW [] pNoName).store "order_1").map recordNoUndefinedB
      = some false := by
  decide

/-- C6 (amended): for every accepted confirmation in which every item of
the payload carries a `name`, the persisted record contains no undefined
field; absent `subtotal` and `shipping` are stored as 0, an absent
customer yields null `customerName`, `phone` and `address`, and an
absent `status` is stored as the default `"Paid"` (item `price` defaults
to 0 and quantity to 1 by construction).  An item without a `name` is
the one position that would propagate `undefined`. -/
theorem record_no_undefined (env : Env) (s : Store) (od : OrderData)
    (id : String) (s' : Store)
    (h : confirm env s od = ⟨Resp.ok id, s'⟩)
    (hitems : ∀ it ∈ od.items.getD [], it.name.isSome = true) :
    ∃ r, Store.get s' id = some r ∧ recordNoUndefinedB r = true ∧
      (od.subtotal = none → r.subtotal = 0) ∧
      (od.shipping = none → r.shipping = 0) ∧
      (od.customer = none → r.customerName = none ∧ r.phone = none ∧ r.address = none) ∧
      (od.status = none → r.paymentStatus = "Paid") := by
  obtain ⟨hreq, -, -, -, -, hs2⟩ := confirm_ok_inv env s od id s' h
  obtain ⟨hu, -, -, -, -⟩ := requiredCheck_eq_none od hreq
  refine ⟨formattedOrder od id, ?_, ?_, ?_, ?_, ?_, ?_⟩
  · rw [hs2]
    exact Store.get_set_self s id (formattedOrder od id)
  · have h1 : (formattedOrder od id).userId.isSome = true := by
      show od.userId.isSome = true
      cases hcase : od.userId with
      | none => rw [hcase] at hu; simp [truthyS] at hu
      | some u => rfl
    have h2 : ((formattedOrder od id).items).all (fun it => it.name.isSome) = true := by
      show (mapItems od.items).all (fun it => it.name.isSome) = true
      unfold mapItems
      cases hi : od.items with
      | none => rfl
      | some l =>
        simp only [List.all_eq_true, List.mem_map]
        rintro it ⟨a, ha, rfl⟩
        exact hitems a (by rw [hi]; exact ha)
    unfold recordNoUndefinedB
    rw [Bool.and_eq_true]
    exact ⟨h1, h2⟩
  · intro hn
    show jsOrI od.subtotal 0 = 0
    rw [hn]
    rfl
  · intro hn
    show jsOrI od.shipping 0 = 0
    rw [hn]
    rfl
  · intro hn
    refine ⟨?_, ?_, ?_⟩
    · show orNull (od.customer.bind Customer.name) = none
      rw [hn]
      rfl
    · show orNull (od.customer.bind Customer.phone) = none
      rw [hn]
      rfl
    · show formatAddress od.customer = none
      rw [hn]
      rfl
  · intro hn
    show jsOrStr od.status "Paid" = "Paid"
    rw [hn]
    rfl

/-- Witness for `record_no_undefined`: the fixture confirmation (no
items, no subtotal defaulting needed) produces a record with no
undefined field. -/
theorem record_no_undefined_w :
    ∃ r, Store.get (Store.set [] "order_1" (formattedOrder pW "order_1")) "order_1"
        = some r ∧ recordNoUndefinedB r = true ∧
      (pW.subtotal = none → r.subtotal = 0) ∧
      (pW.shipping = none → r.shipping = 0) ∧
      (pW.customer = none → r.customerName = none ∧ r.phone = none ∧ r.address = none) ∧
      (pW.status = none → r.paymentStatus = "Paid") :=
  record_no_undefined envW [] pW "order_1"
    (Store.set [] "order_1" (formattedOrder pW "order_1")) (by decide) (by decide)

/-- The fixture payload with its signature field absent. -/
def pNoSig : OrderData := { pW with razorpay_signature := none }

/-- C7 counterexample: a payload missing its signature is rejected by the
confirmation pipeline with the distinct error `missingField
"razorpay_signature"`, not with `invalidSignature` as a mismatched
signature would be. -/
theorem missing_field_vs_signature_cex :
    confirm envW [] pNoSig =
      ⟨Resp.error (ConfirmError.missingField "razorpay_signature"), []⟩ ∧
    ConfirmError.missingField "razorpay_signature" ≠ ConfirmError.invalidSignature := by
  decide

/-- C7 (amended): a confirmation payload missing its gateway order id,
payment id or signature is rejected before signature verification and
nothing is persisted — but by the revised pipeline's required-field
check, with a distinct `missingField` error naming the field, not with
`invalidSignature`; it is the server.js helper `verifyRazorpaySignature`
that folds a missing field into the same `false` it returns for a
mismatched signature. -/
theorem missing_field_policy (env : Env) (s : Store) (od : OrderData)
    (hu : truthyS od.userId = true) (ht : truthyI od.total = true)
    (hmiss : truthyS od.razorpay_payment_id = false ∨
      truthyS od.razorpay_order_id = false ∨
      truthyS od.razorpay_signature = false) :
    (∃ f, (f = "razorpay_payment_id" ∨ f = "razorpay_order_id" ∨ f = "razorpay_signature") ∧
      confirm env s od = ⟨Resp.error (ConfirmError.missingField f), s⟩) ∧
    ∀ oid pid sig : Option String,
      truthyS oid = false ∨ truthyS pid = false ∨ truthyS sig = false →
      verifyRazorpaySignature env oid pid sig = false := by
  constructor
  · by_cases h3 : truthyS od.razorpay_payment_id = true
    · by_cases h4 : truthyS od.razorpay_order_id = true
      · have h5 : truthyS od.razorpay_signature = false := by
          rcases hmiss with hm | hm | hm <;> simp_all
        exact ⟨"razorpay_signature", Or.inr (Or.inr rfl),
          confirm_missing env s od _ (by simp [requiredCheck, hu, ht, h3, h4, h5])⟩
      · have h4' : truthyS od.razorpay_order_id = false := by simpa using h4
        exact ⟨"razorpay_order_id", Or.inr (Or.inl rfl),
          confirm_missing env s od _ (by simp [requiredCheck, hu, ht, h3, h4'])⟩
    · have h3' : truthyS od.razorpay_payment_id = false := by simpa using h3
      exact ⟨"razorpay_payment_id", Or.inl rfl,
        confirm_missing env s od _ (by simp [requiredCheck, hu, ht, h3'])⟩
  · intro oid pid sig hm
    unfold verifyRazorpaySignature
    rcases hm with hm | hm | hm <;> simp [hm]

/-- Witness for `missing_field_policy`: the helper returns `false` for a
missing order id exactly as it would for a mismatch. -/
theorem missing_field_policy_w :
    verifyRazorpaySignature envW none (some "p") (some "s") = false :=
  (missing_field_policy envW [] pNoSig (by decide) (by decide)
    (Or.inr (Or.inr (by decide)))).2 none (some "p") (some "s") (Or.inl (by decide))

end Ermunai
